import Mathlib

/-!
Verification of the tile-editor core of the 79BI repository.

The repository carries three near-duplicate copies of the tile-editor logic:
  * copy V1: src/frontend/src/components/TileEditor.tsx, lines 1-1248
  * copy V2: src/frontend/src/components/TileEditor.tsx, lines 1249-2431
  * copy P0: src/unnamed/part_000, lines 42-1015 (same bodies as V2 except for
    handleAddMeasure, whose map-update line references an out-of-scope variable)

Definitions below are shallow embeddings of those TypeScript functions; the
suffix V1 / V2 / P0 says which copy a definition is taken from.  JavaScript
`Map` objects are modelled as ordered association lists, JS string falsiness
(empty string is falsy) is modelled explicitly, and JS `Array.prototype.splice`
index handling is modelled over `Int`.
-/

namespace BI

set_option maxRecDepth 8192

/-- `DatabaseField` record (TileEditor.tsx lines 132-137). -/
structure DatabaseField where
  name : String
  type : String
  table : String
  description : Option String := none
deriving DecidableEq

/-- `DimensionField` record (TileEditor.tsx lines 88-92). -/
structure DimensionField where
  fieldId : String
  fieldName : String
  aggregation : Option String := none
deriving DecidableEq

/-- `MeasureField` record (TileEditor.tsx lines 94-99). -/
structure MeasureField where
  fieldId : String
  fieldName : String
  aggregation : String
  «alias» : Option String := none
deriving DecidableEq

/-- `TextRow` record (TileEditor.tsx lines 101-106); `type` is one of
header, subheader, text. -/
structure TextRow where
  id : String
  type : String
  content : String
  isQuery : Bool
deriving DecidableEq

/-- The `fieldTableMap` JS `Map<string, string>`, as an insertion-ordered
association list. -/
abbrev FieldTableMap : Type := List (String × String)

/-- JS `Map.prototype.set`: replace the value in place if the key is present,
otherwise append the pair. -/
def mapSet (m : FieldTableMap) (k v : String) : FieldTableMap :=
  if m.any (fun p => p.1 == k) then
    m.map (fun p => if p.1 == k then (k, v) else p)
  else m ++ [(k, v)]

/-- JS `Map.prototype.get`: the value stored at the key, if any. -/
def mapGet (m : FieldTableMap) (k : String) : Option String :=
  (m.find? (fun p => p.1 == k)).map Prod.snd

/-- JS `x || fallback` on a possibly-undefined string: `undefined` and the
empty string are falsy. -/
def jsOrElse (x : Option String) (fallback : String) : String :=
  match x with
  | some s => if s = "" then fallback else s
  | none => fallback

/-- JS `x || fallback` on a plain string: the empty string is falsy. -/
def jsOrStr (x fallback : String) : String :=
  if x = "" then fallback else x

/-- JS `String.prototype.toLowerCase` (ASCII fragment, enough for the
type-name strings this code compares). -/
def toLowerStr (s : String) : String := String.mk (s.data.map Char.toLower)

/-- JS `String.prototype.includes`: substring containment. -/
def jsIncludes (s pat : String) : Bool := decide (pat.data <:+: s.data)

/-- JS `String.prototype.trim` (ASCII whitespace fragment). -/
def trimStr (s : String) : String :=
  String.mk (((s.data.dropWhile Char.isWhitespace).reverse.dropWhile
    Char.isWhitespace).reverse)

/-- Numeric-type substring list of copy V1 (TileEditor.tsx line 566). -/
def numericTypesV1 : List String :=
  ["int", "integer", "number", "float", "double", "decimal", "numeric",
   "bigint", "smallint", "real"]

/-- Numeric-type substring list of copies V2 and P0 (TileEditor.tsx line 2001,
part_000 line 569): seven entries, no bigint, smallint or real. -/
def numericTypesV2 : List String :=
  ["number", "integer", "int", "float", "decimal", "double", "numeric"]

/-- `isNumericField`, copy V1 (TileEditor.tsx lines 564-568): guards against a
missing or empty `type`, then matches the lowercased type against the
ten-entry substring list. -/
def isNumericFieldV1 (field : DatabaseField) : Bool :=
  if field.type = "" then false
  else numericTypesV1.any (fun t => jsIncludes (toLowerStr field.type) t)

/-- `isNumericField`, copies V2 and P0 (TileEditor.tsx lines 2000-2003,
part_000 lines 568-571): no guard, seven-entry substring list. -/
def isNumericFieldV2 (field : DatabaseField) : Bool :=
  numericTypesV2.any (fun t => jsIncludes (toLowerStr field.type) t)

/-- JS `Array.prototype.join` with a separator string. -/
def strJoin (sep : String) : List String → String
  | [] => ""
  | [x] => x
  | x :: y :: xs => x ++ sep ++ strJoin sep (y :: xs)

/-- Table lookup used by `generateSqlQuery`:
`fieldTableMap.get(fieldId) || 'unknown_table'`. -/
def resolveTable (fm : FieldTableMap) (fieldId : String) : String :=
  jsOrElse (mapGet fm fieldId) "unknown_table"

/-- One dimension column: `table.fieldName` (TileEditor.tsx line 545). -/
def dimColumn (fm : FieldTableMap) (d : DimensionField) : String :=
  resolveTable fm d.fieldId ++ "." ++ d.fieldName

/-- One measure column of copy V1 (TileEditor.tsx line 551):
`aggregation(table.fieldName) as (alias || fieldName)`. -/
def measColumnV1 (fm : FieldTableMap) (m : MeasureField) : String :=
  m.aggregation ++ "(" ++ resolveTable fm m.fieldId ++ "." ++ m.fieldName
    ++ ") as " ++ jsOrElse m.alias m.fieldName

/-- JS template-literal interpolation of a possibly-undefined string: a
missing value is rendered as the text undefined. -/
def jsInterpOpt (x : Option String) : String :=
  match x with
  | some a => a
  | none => "undefined"

/-- One measure column of copies V2 and P0 (TileEditor.tsx line 1986,
part_000 line 554): `aggregation(table.fieldName) as alias`, with no fallback,
so a missing alias is interpolated as the JS text `undefined`. -/
def measColumnV2 (fm : FieldTableMap) (m : MeasureField) : String :=
  m.aggregation ++ "(" ++ resolveTable fm m.fieldId ++ "." ++ m.fieldName
    ++ ") as " ++ jsInterpOpt m.alias

/-- JS `Set.prototype.add` on an insertion-ordered set. -/
def insertUnique (l : List String) (x : String) : List String :=
  if x ∈ l then l else l ++ [x]

/-- The `tables` set of `generateSqlQuery`: tables resolved for the
dimensions, then for the measures, deduplicated in order of first
appearance (TileEditor.tsx lines 537-555). -/
def tablesList (dims : List DimensionField) (ms : List MeasureField)
    (fm : FieldTableMap) : List String :=
  (ms.map (fun m => resolveTable fm m.fieldId)).foldl insertUnique
    ((dims.map (fun d => resolveTable fm d.fieldId)).foldl insertUnique [])

/-- `groupByClause` (TileEditor.tsx line 558). -/
def groupByClauseOf (dims : List DimensionField) (fm : FieldTableMap) : String :=
  if 0 < (dims.map (dimColumn fm)).length then
    "GROUP BY " ++ strJoin ", " (dims.map (dimColumn fm))
  else ""

/-- The inline comment copy V2 and P0 place after the FROM clause when more
than one distinct table is involved (TileEditor.tsx line 1996, part_000
line 564). -/
def joinComment : String := "\x2f* JOIN logic needed for multiple tables *\x2f"

/-- `generateSqlQuery`, copy V1 (TileEditor.tsx lines 532-561): empty string
when either selection list is empty; otherwise a SELECT statement whose
clauses are separated by a space and a newline before FROM and before
GROUP BY.  This copy never emits a JOIN marker. -/
def generateSqlQueryV1 (dims : List DimensionField) (ms : List MeasureField)
    (fm : FieldTableMap) : String :=
  if dims.length = 0 ∨ ms.length = 0 then ""
  else
    "SELECT " ++ strJoin ", " (dims.map (dimColumn fm) ++ ms.map (measColumnV1 fm))
      ++ " \nFROM " ++ (tablesList dims ms fm).headD "undefined"
      ++ " \n" ++ groupByClauseOf dims fm

/-- `generateSqlQuery`, copies V2 and P0 (TileEditor.tsx lines 1967-1997,
part_000 lines 535-565): single-line SELECT statement; after the FROM table it
interpolates the JOIN marker comment when more than one distinct table was
resolved, and the empty string otherwise (leaving two consecutive spaces). -/
def generateSqlQueryV2 (dims : List DimensionField) (ms : List MeasureField)
    (fm : FieldTableMap) : String :=
  if dims.length = 0 ∨ ms.length = 0 then ""
  else
    "SELECT " ++ strJoin ", " (dims.map (dimColumn fm) ++ ms.map (measColumnV2 fm))
      ++ " FROM " ++ (tablesList dims ms fm).headD "undefined"
      ++ " " ++ (if 1 < (tablesList dims ms fm).length then joinComment else "")
      ++ " " ++ groupByClauseOf dims fm

/-- `handleAddDimension` (TileEditor.tsx lines 440-453, identical in all
copies): keyed by `table + "." + name`; no-op when a dimension with that id
exists, otherwise appends and records the table in the field-table map. -/
def handleAddDimension (dims : List DimensionField) (fm : FieldTableMap)
    (field : DatabaseField) : List DimensionField × FieldTableMap :=
  if dims.any (fun d => d.fieldId == field.table ++ "." ++ field.name) then (dims, fm)
  else (dims ++ [{ fieldId := field.table ++ "." ++ field.name, fieldName := field.name }],
        mapSet fm (field.table ++ "." ++ field.name) field.table)

/-- The start index JS `Array.prototype.splice` actually uses for a length-n
array: a negative index counts back from the end and clamps at 0, a
non-negative one clamps at n. -/
def spliceStart (n : Nat) (i : Int) : Int :=
  if i < 0 then max ((n : Int) + i) 0 else min i (n : Int)

/-- JS `array.splice(i, 1)` on a copied array: the result after removing one
element at the effective start index (an index at or past the end removes
nothing). -/
def spliceRemoveOne {α : Type} (l : List α) (i : Int) : List α :=
  l.take (spliceStart l.length i).toNat ++ l.drop ((spliceStart l.length i).toNat + 1)

/-- `handleRemoveDimension` (TileEditor.tsx lines 455-459): positional removal
via `splice(index, 1)` on a copy of the list. -/
def handleRemoveDimension (dims : List DimensionField) (index : Int) :
    List DimensionField :=
  spliceRemoveOne dims index

/-- `handleAddMeasure`, copies V1 and V2 (TileEditor.tsx lines 461-482 and
1733-1754): rejects non-numeric fields, keys the existence check on the bare
field name, appends with aggregation sum and alias `name + "_sum"`, and
records `name -> table` in the field-table map. -/
def handleAddMeasure (ms : List MeasureField) (fm : FieldTableMap)
    (field : DatabaseField) : List MeasureField × FieldTableMap :=
  if isNumericFieldV1 field = false then (ms, fm)
  else if ms.any (fun m => m.fieldId == field.name) then (ms, fm)
  else (ms ++ [{ fieldId := field.name, fieldName := field.name,
                 aggregation := "sum", «alias» := some (field.name ++ "_sum") }],
        mapSet fm field.name field.table)

/-- `handleAddMeasure`, copy P0 (part_000 lines 386-407).  Its map-update line
405 is `fieldTableMap.set(fieldId, field.table)`, but no `fieldId` is in scope
there (the other copies write `newMeasure.fieldId`), so appending a new
numeric measure throws a ReferenceError after the list update has been
enqueued.  The result pairs the state actually reached with the thrown
error, if any. -/
def handleAddMeasureP0 (ms : List MeasureField) (fm : FieldTableMap)
    (field : DatabaseField) :
    (List MeasureField × FieldTableMap) × Option String :=
  if isNumericFieldV2 field = false then ((ms, fm), none)
  else if ms.any (fun m => m.fieldId == field.name) then ((ms, fm), none)
  else ((ms ++ [{ fieldId := field.name, fieldName := field.name,
                  aggregation := "sum", «alias» := some (field.name ++ "_sum") }],
         fm),
        some "ReferenceError: fieldId is not defined")

/-- Editor-session state read by the validation gate and the save handler. -/
structure EditorState where
  name : String
  tileType : String
  connectionId : String
  dimensions : List DimensionField
  measures : List MeasureField
  textRows : List TextRow
  isQueryMode : Bool
  customQuery : String
deriving DecidableEq

/-- `isValid`, copy V1 (TileEditor.tsx lines 205-225): a pure completeness
predicate; JS string truthiness of `connectionId` is the emptiness test. -/
def isValidV1 (s : EditorState) : Bool :=
  if trimStr s.name = "" then false
  else if s.tileType = "chart" ∨ s.tileType = "table" then
    decide (s.connectionId ≠ "") && decide (0 < s.dimensions.length)
      && decide (0 < s.measures.length)
  else if s.tileType = "metric" then
    decide (s.connectionId ≠ "") && decide (0 < s.measures.length)
  else if s.tileType = "text" then
    decide (0 < s.textRows.length)
      && s.textRows.any (fun row => trimStr row.content != "")
  else if s.tileType = "query" then
    if s.isQueryMode then
      decide (s.connectionId ≠ "") && decide (0 < (trimStr s.customQuery).length)
    else
      decide (0 < s.textRows.length)
        && s.textRows.any (fun row => trimStr row.content != "")
  else false

/-- `isValid`, copy V2 (TileEditor.tsx lines 1811-1833): returns the verdict
together with the error message it surfaces on failure. -/
def isValidV2 (s : EditorState) : Bool × String :=
  if trimStr s.name = "" then (false, "Title is required")
  else if s.tileType = "chart" ∧ s.measures.length = 0 then
    (false, "At least one measure is required for a chart")
  else if s.tileType = "metric" ∧ s.measures.length = 0 then
    (false, "At least one measure is required for a metric tile")
  else if (s.tileType = "chart" ∨ s.tileType = "table" ∨ s.tileType = "metric")
      ∧ s.connectionId = "" then
    (false, "A connection is required for this tile type")
  else (true, "")

/-- UI-to-backend tile-type mapping used on save (TileEditor.tsx lines
656-673 and 1914-1932): chart and table persist as chart, metric as kpi,
text and query as text. -/
def uiToBackendType (tileType : String) : String :=
  if tileType = "chart" ∨ tileType = "table" then "chart"
  else if tileType = "metric" then "kpi"
  else if tileType = "text" ∨ tileType = "query" then "text"
  else "chart"

/-- Observable outcome of one `handleSave` call: whether the persistence
service was invoked, whether the dialog closed, the surfaced error message,
and the editor state afterwards. -/
structure SaveResult where
  networkCalled : Bool
  dialogClosed : Bool
  errorMsg : String
  stateAfter : EditorState
deriving DecidableEq

/-- `handleSave`, copy V1 (TileEditor.tsx lines 571-704): blocked by `isValid`
with the generic message before anything else; the metric branch re-checks the
measure list (unreachably, since `isValid` already required it) with a
measure-specific message; otherwise the tile DTO is sent.  A blocked save
surfaces only an error: the dialog stays open and no selection changes. -/
def handleSaveV1 (s : EditorState) : SaveResult :=
  if isValidV1 s = false then
    { networkCalled := false, dialogClosed := false,
      errorMsg := "Invalid tile configuration", stateAfter := s }
  else if s.tileType = "metric" ∧ s.measures.length = 0 then
    { networkCalled := false, dialogClosed := false,
      errorMsg := "At least one measure is required for a metric tile",
      stateAfter := s }
  else
    { networkCalled := true, dialogClosed := true, errorMsg := "",
      stateAfter := s }

/-- `handleSave`, copy V2 (TileEditor.tsx lines 1835-1965): blocked by its
`isValid`, which already surfaces the specific message. -/
def handleSaveV2 (s : EditorState) : SaveResult :=
  if (isValidV2 s).1 = false then
    { networkCalled := false, dialogClosed := false,
      errorMsg := (isValidV2 s).2, stateAfter := s }
  else if s.tileType = "metric" ∧ s.measures.length = 0 then
    { networkCalled := false, dialogClosed := false,
      errorMsg := "At least one measure is required for a metric tile",
      stateAfter := s }
  else
    { networkCalled := true, dialogClosed := true, errorMsg := "",
      stateAfter := s }

/-- The slice of a persisted `TileConfig` that the tile-init effect reads to
recover the UI tile kind. -/
structure TileConfigR where
  uiType : Option String := none
  uiChartType : Option String := none
deriving DecidableEq

/-- A persisted tile as handed back to the editor: backend type plus the
opaque configuration. -/
structure TileR where
  title : String
  type : String
  config : Option TileConfigR := none
deriving DecidableEq

/-- The `uiType` and `uiChartType` tags that `handleSave` (copy V2, lines
1848-1907) stores in the configuration for each UI tile kind. -/
def buildConfigV2 (tileType chartType : String) : TileConfigR :=
  if tileType = "chart" then { uiType := some "chart", uiChartType := some chartType }
  else if tileType = "table" then { uiType := some "table", uiChartType := some "table" }
  else if tileType = "metric" then { uiType := some "metric" }
  else if tileType = "text" then { uiType := some "text" }
  else if tileType = "query" then { uiType := some "query" }
  else {}

/-- Legacy backend-to-UI default mapping of the copy V2 tile-init effect
(TileEditor.tsx lines 1563-1569). -/
def backendToUiDefault (backendType : String) : String :=
  if backendType = "chart" then "chart"
  else if backendType = "text" then "text"
  else if backendType = "kpi" then "metric"
  else "chart"

/-- Tile-kind restoration of the copy V1 tile-init effect (TileEditor.tsx
lines 248-268): `setTileType(tile.type || 'chart')`, ignoring any persisted
`uiType` tag. -/
def restoreTileTypeV1 (tile : TileR) : String :=
  jsOrStr tile.type "chart"

/-- Tile-kind restoration of the copy V2 tile-init effect (TileEditor.tsx
lines 1551-1618): prefer a truthy `config.uiType` tag, else fall back to the
backend-to-UI default mapping. -/
def restoreTileTypeV2 (tile : TileR) : String :=
  match tile.config with
  | some c =>
    match c.uiType with
    | some u => if u = "" then backendToUiDefault tile.type else u
    | none => backendToUiDefault tile.type
  | none => backendToUiDefault tile.type

/-- The numeric-type characterization claimed by the specification, stated
from the spec's words for comparison with the code's classifiers: the
lowercased type contains one of ten fixed substrings. -/
def specNumericType (ty : String) : Bool :=
  ["int", "integer", "number", "float", "double", "decimal", "numeric",
   "bigint", "smallint", "real"].any (fun t => jsIncludes (toLowerStr ty) t)

/-! Concrete sample data used by witnesses and counterexamples. -/

/-- Dimension `orders.region` from the specification's scenario. -/
def dimRegion : DimensionField := { fieldId := "orders.region", fieldName := "region" }

/-- Measure `amount` (sum, alias `amount_sum`) from the specification's
scenario. -/
def measAmount : MeasureField :=
  { fieldId := "amount", fieldName := "amount", aggregation := "sum",
    «alias» := some "amount_sum" }

/-- Field-table map of the specification's scenario. -/
def fmOrders : FieldTableMap := [("orders.region", "orders"), ("amount", "orders")]

/-- A dimension resolving to table t1. -/
def dimA : DimensionField := { fieldId := "t1.a", fieldName := "a" }

/-- A dimension resolving to table t2. -/
def dimB : DimensionField := { fieldId := "t2.b", fieldName := "b" }

/-- A measure resolving to table t1. -/
def measC : MeasureField :=
  { fieldId := "c", fieldName := "c", aggregation := "sum", «alias» := some "c_sum" }

/-- Field-table map resolving dimA, dimB and measC to two distinct tables. -/
def fmTwoTables : FieldTableMap := [("t1.a", "t1"), ("t2.b", "t2"), ("c", "t1")]

/-- A numeric field named amount on table orders. -/
def fAmountOrders : DatabaseField := { name := "amount", type := "int", table := "orders" }

/-- A field with the same name as `fAmountOrders` on a different table. -/
def fAmountRefunds : DatabaseField := { name := "amount", type := "int", table := "refunds" }

/-- A field of SQL type BIGINT. -/
def fBigint : DatabaseField := { name := "a", type := "BIGINT", table := "t" }

/-- A field of SQL type VARCHAR. -/
def fVarchar : DatabaseField := { name := "b", type := "VARCHAR", table := "t" }

/-- A field with an empty type string. -/
def fEmptyType : DatabaseField := { name := "c", type := "", table := "t" }

/-- A field of SQL type REAL. -/
def fReal : DatabaseField := { name := "price", type := "REAL", table := "t" }

/-- Constructor helper for persisted tiles. -/
def mkTile (title type : String) (config : Option TileConfigR) : TileR :=
  { title := title, type := type, config := config }

/-- A table-kind tile as `handleSave` (copy V2) persists it: backend type
chart, configuration tagged with uiType table. -/
def tTableSaved : TileR :=
  { title := "Sales", type := uiToBackendType "table",
    config := some (buildConfigV2 "table" "bar") }

/-- A metric-kind editor state with a connection, a title and no measures. -/
def sMetricNoMeasure : EditorState :=
  { name := "KPI", tileType := "metric", connectionId := "c1", dimensions := [],
    measures := [], textRows := [], isQueryMode := false, customQuery := "" }

/-! General lemmas about the string and map models. -/

theorem mem_data_append {c : Char} {s t : String} :
    c ∈ (s ++ t).data ↔ c ∈ s.data ∨ c ∈ t.data := by
  rw [String.data_append, List.mem_append]

theorem ne_empty_of_prefix {p : List Char} {s : String}
    (h : p <+: s.data) (hp : p ≠ []) : s ≠ "" := by
  intro he
  subst he
  exact hp (List.prefix_nil.mp h)

theorem mapGet_mapSet_self (m : FieldTableMap) (k v : String) :
    mapGet (mapSet m k v) k = some v := by
  rw [mapSet]
  by_cases h : m.any (fun p => p.1 == k)
  · rw [if_pos h]
    induction m with
    | nil => simp at h
    | cons p ps ih =>
      by_cases hp : (p.1 == k) = true
      · simp [mapGet, List.find?, hp]
      · have hps : ps.any (fun q => q.1 == k) = true := by
          rcases List.any_eq_true.mp h with ⟨q, hq, hqk⟩
          rcases List.mem_cons.mp hq with rfl | hq2
          · exact absurd hqk hp
          · exact List.any_eq_true.mpr ⟨q, hq2, hqk⟩
        have hrec := ih hps
        rw [mapGet] at hrec ⊢
        simpa [List.find?, hp] using hrec
  · rw [if_neg h]
    have hnone : m.find? (fun p => p.1 == k) = none := by
      rw [List.find?_eq_none]
      intro q hq hqk
      exact h (List.any_eq_true.mpr ⟨q, hq, hqk⟩)
    rw [mapGet, List.find?_append, hnone]
    simp [List.find?]

/-- C1: the specification's single-table scenario does not produce exactly
the claimed string in either copy of `generateSqlQuery`: copy V1 separates
the clauses with a trailing space and a newline, and copies V2/P0 leave two
consecutive spaces where the JOIN marker would sit. -/
theorem claim_C1_counterexample :
    generateSqlQueryV1 [dimRegion] [measAmount] fmOrders ≠
      "SELECT orders.region, sum(orders.amount) as amount_sum FROM orders GROUP BY orders.region"
    ∧ generateSqlQueryV2 [dimRegion] [measAmount] fmOrders ≠
      "SELECT orders.region, sum(orders.amount) as amount_sum FROM orders GROUP BY orders.region" := by
  constructor
  · decide
  · decide

/-- C1 (amended): on the scenario dimensions=[orders.region],
measures=[sum(amount) as amount_sum], fieldTableMap={orders.region->orders,
amount->orders}, the V2/P0 copy of `generateSqlQuery` returns the claimed
SELECT statement except with two spaces between the FROM table and GROUP BY,
the V1 copy returns it with space-newline clause separators, and neither
output contains the JOIN-needed marker. -/
theorem claim_C1_amended :
    generateSqlQueryV2 [dimRegion] [measAmount] fmOrders =
      "SELECT orders.region, sum(orders.amount) as amount_sum FROM orders  GROUP BY orders.region"
    ∧ generateSqlQueryV1 [dimRegion] [measAmount] fmOrders =
      "SELECT orders.region, sum(orders.amount) as amount_sum \nFROM orders \nGROUP BY orders.region"
    ∧ ¬ (joinComment.data <:+: (generateSqlQueryV2 [dimRegion] [measAmount] fmOrders).data)
    ∧ ¬ (joinComment.data <:+: (generateSqlQueryV1 [dimRegion] [measAmount] fmOrders).data) := by
  refine ⟨by decide, by decide, by decide, by decide⟩

/-- C2: for every selection, `generateSqlQuery` (both copies) returns the
empty string when either the dimension list or the measure list is empty, and
a non-empty string starting with SELECT when both are non-empty. -/
theorem claim_C2 :
    ∀ (dims : List DimensionField) (ms : List MeasureField) (fm : FieldTableMap),
    ((dims = [] ∨ ms = []) →
      generateSqlQueryV1 dims ms fm = "" ∧ generateSqlQueryV2 dims ms fm = "")
    ∧ (dims ≠ [] → ms ≠ [] →
      ("SELECT ".data <+: (generateSqlQueryV1 dims ms fm).data
        ∧ generateSqlQueryV1 dims ms fm ≠ "")
      ∧ ("SELECT ".data <+: (generateSqlQueryV2 dims ms fm).data
        ∧ generateSqlQueryV2 dims ms fm ≠ "")) := by
  intro dims ms fm
  constructor
  · intro h
    have hc : dims.length = 0 ∨ ms.length = 0 := by
      rcases h with rfl | rfl
      · exact Or.inl rfl
      · exact Or.inr rfl
    exact ⟨by rw [generateSqlQueryV1, if_pos hc], by rw [generateSqlQueryV2, if_pos hc]⟩
  · intro hd hm
    have hc : ¬ (dims.length = 0 ∨ ms.length = 0) := by
      rintro (h0 | h0)
      · exact hd (List.length_eq_zero.mp h0)
      · exact hm (List.length_eq_zero.mp h0)
    have h1 : "SELECT ".data <+: (generateSqlQueryV1 dims ms fm).data := by
      rw [generateSqlQueryV1, if_neg hc]
      simp only [String.data_append, List.append_assoc]
      exact List.prefix_append _ _
    have h2 : "SELECT ".data <+: (generateSqlQueryV2 dims ms fm).data := by
      rw [generateSqlQueryV2, if_neg hc]
      simp only [String.data_append, List.append_assoc]
      exact List.prefix_append _ _
    exact ⟨⟨h1, ne_empty_of_prefix h1 (by decide)⟩, ⟨h2, ne_empty_of_prefix h2 (by decide)⟩⟩

/-- Witness for C2 at concrete inputs: empty measures give the empty string,
and the full scenario selection gives a non-empty query, in both copies. -/
theorem claim_C2_witness :
    generateSqlQueryV1 [dimRegion] [] fmOrders = ""
    ∧ generateSqlQueryV2 [dimRegion] [] fmOrders = ""
    ∧ generateSqlQueryV1 [dimRegion] [measAmount] fmOrders ≠ ""
    ∧ generateSqlQueryV2 [dimRegion] [measAmount] fmOrders ≠ "" := by
  refine ⟨((claim_C2 [dimRegion] [] fmOrders).1 (Or.inr rfl)).1,
          ((claim_C2 [dimRegion] [] fmOrders).1 (Or.inr rfl)).2,
          (((claim_C2 [dimRegion] [measAmount] fmOrders).2 (by decide) (by decide)).1).2,
          (((claim_C2 [dimRegion] [measAmount] fmOrders).2 (by decide) (by decide)).2).2⟩

/-- C5: `addMeasure` is a no-op on non-numeric fields; on a numeric field not
yet selected it appends exactly one measure with aggregation sum and alias
name_sum and records the name-to-table mapping; a repeated `addMeasure` of
the same field leaves the whole state unchanged. -/
theorem claim_C5 :
    ∀ (ms : List MeasureField) (fm : FieldTableMap) (f : DatabaseField),
    (isNumericFieldV1 f = false → handleAddMeasure ms fm f = (ms, fm))
    ∧ (isNumericFieldV1 f = true → ms.any (fun m => m.fieldId == f.name) = false →
        (handleAddMeasure ms fm f).1 =
          ms ++ [{ fieldId := f.name, fieldName := f.name, aggregation := "sum",
                   «alias» := some (f.name ++ "_sum") }]
        ∧ mapGet (handleAddMeasure ms fm f).2 f.name = some f.table)
    ∧ handleAddMeasure (handleAddMeasure ms fm f).1 (handleAddMeasure ms fm f).2 f
        = handleAddMeasure ms fm f := by
  intro ms fm f
  refine ⟨?_, ?_, ?_⟩
  · intro hnum
    rw [handleAddMeasure, if_pos hnum]
  · intro hnum hnew
    have hcond : ¬ isNumericFieldV1 f = false := by rw [hnum]; simp
    have hex : ¬ ms.any (fun m => m.fieldId == f.name) = true := by rw [hnew]; simp
    rw [handleAddMeasure, if_neg hcond, if_neg hex]
    exact ⟨rfl, mapGet_mapSet_self fm f.name f.table⟩
  · by_cases hnum : isNumericFieldV1 f = false
    · have hr : handleAddMeasure ms fm f = (ms, fm) := by
        rw [handleAddMeasure, if_pos hnum]
      rw [hr]
      exact hr
    · by_cases hex : ms.any (fun m => m.fieldId == f.name) = true
      · have hr : handleAddMeasure ms fm f = (ms, fm) := by
          rw [handleAddMeasure, if_neg hnum, if_pos hex]
        rw [hr]
        exact hr
      · have hr : handleAddMeasure ms fm f =
            (ms ++ [{ fieldId := f.name, fieldName := f.name, aggregation := "sum",
                      «alias» := some (f.name ++ "_sum") }],
             mapSet fm f.name f.table) := by
          rw [handleAddMeasure, if_neg hnum, if_neg hex]
        have hex2 : (handleAddMeasure ms fm f).1.any (fun m => m.fieldId == f.name) = true := by
          rw [hr, List.any_append]
          simp
        have houter : handleAddMeasure (handleAddMeasure ms fm f).1
            (handleAddMeasure ms fm f).2 f
            = ((handleAddMeasure ms fm f).1, (handleAddMeasure ms fm f).2) := by
          rw [handleAddMeasure, if_neg hnum, if_pos hex2]
        rw [houter]

/-- Witness for C5: adding the numeric field amount from table orders to an
empty selection appends the sum measure and records the table mapping. -/
theorem claim_C5_witness :
    (handleAddMeasure [] [] fAmountOrders).1 =
      [] ++ [{ fieldId := fAmountOrders.name, fieldName := fAmountOrders.name,
               aggregation := "sum", «alias» := some (fAmountOrders.name ++ "_sum") }]
    ∧ mapGet (handleAddMeasure [] [] fAmountOrders).2 fAmountOrders.name =
        some fAmountOrders.table :=
  (claim_C5 [] [] fAmountOrders).2.1 (by decide) rfl

/-- C6: `addDimension` keys on the composite identifier table.name; when no
dimension with that id exists it appends one and records the id-to-table
mapping; repeating the call leaves the whole state unchanged, so insertion
order of distinct dimensions is preserved by the append. -/
theorem claim_C6 :
    ∀ (dims : List DimensionField) (fm : FieldTableMap) (f : DatabaseField),
    (dims.any (fun d => d.fieldId == f.table ++ "." ++ f.name) = false →
      (handleAddDimension dims fm f).1 =
        dims ++ [{ fieldId := f.table ++ "." ++ f.name, fieldName := f.name }]
      ∧ mapGet (handleAddDimension dims fm f).2 (f.table ++ "." ++ f.name) =
          some f.table)
    ∧ handleAddDimension (handleAddDimension dims fm f).1
        (handleAddDimension dims fm f).2 f = handleAddDimension dims fm f := by
  intro dims fm f
  constructor
  · intro hnew
    have hex : ¬ dims.any (fun d => d.fieldId == f.table ++ "." ++ f.name) = true := by
      rw [hnew]; simp
    rw [handleAddDimension, if_neg hex]
    exact ⟨rfl, mapGet_mapSet_self fm (f.table ++ "." ++ f.name) f.table⟩
  · by_cases hex : dims.any (fun d => d.fieldId == f.table ++ "." ++ f.name) = true
    · have hr : handleAddDimension dims fm f = (dims, fm) := by
        rw [handleAddDimension, if_pos hex]
      rw [hr]
      exact hr
    · have hr : handleAddDimension dims fm f =
          (dims ++ [{ fieldId := f.table ++ "." ++ f.name, fieldName := f.name }],
           mapSet fm (f.table ++ "." ++ f.name) f.table) := by
        rw [handleAddDimension, if_neg hex]
      have hex2 : (handleAddDimension dims fm f).1.any
          (fun d => d.fieldId == f.table ++ "." ++ f.name) = true := by
        rw [hr, List.any_append]
        simp
      have houter : handleAddDimension (handleAddDimension dims fm f).1
          (handleAddDimension dims fm f).2 f
          = ((handleAddDimension dims fm f).1, (handleAddDimension dims fm f).2) := by
        rw [handleAddDimension, if_pos hex2]
      rw [houter]

/-- Witness for C6: adding orders.amount as a dimension to an empty selection
appends the composite-keyed dimension and records the table mapping. -/
theorem claim_C6_witness :
    (handleAddDimension [] [] fAmountOrders).1 =
      [] ++ [{ fieldId := fAmountOrders.table ++ "." ++ fAmountOrders.name,
               fieldName := fAmountOrders.name }]
    ∧ mapGet (handleAddDimension [] [] fAmountOrders).2
        (fAmountOrders.table ++ "." ++ fAmountOrders.name) = some fAmountOrders.table :=
  (claim_C6 [] [] fAmountOrders).1 rfl

/-- C7: the claimed ten-substring numeric characterization disagrees with the
V2/P0 copy of `isNumericField`: a REAL-typed field is numeric under the
claimed characterization but rejected by that copy. -/
theorem claim_C7_counterexample :
    isNumericFieldV2 fReal = false ∧ specNumericType fReal.type = true := by
  exact ⟨by decide, by decide⟩

/-- C7 (amended): the ten-substring characterization holds exactly for the V1
copy of `isNumericField`, which classifies BIGINT as numeric, VARCHAR as not
numeric, and an empty type as not numeric; the V2/P0 copy uses a seven-entry
list without real. -/
theorem claim_C7_amended :
    (∀ f : DatabaseField, isNumericFieldV1 f = specNumericType f.type)
    ∧ isNumericFieldV1 fBigint = true
    ∧ isNumericFieldV1 fVarchar = false
    ∧ isNumericFieldV1 fEmptyType = false := by
  refine ⟨?_, by decide, by decide, by decide⟩
  intro f
  by_cases h : f.type = ""
  · rw [isNumericFieldV1, if_pos h, h]
    decide
  · rw [isNumericFieldV1, if_neg h]
    rfl

/-- C10: with two same-named fields from different tables, the TileEditor.tsx
copy of `addMeasure` adds only the first (the second call is a no-op) and the
map keeps the first field's table, as the claim says; but the P0 copy
(part_000 line 405) references the out-of-scope variable fieldId, so the
first call throws a ReferenceError and the field-table entry is never
recorded. -/
theorem claim_C10_bug :
    (handleAddMeasure [] [] fAmountOrders).1.length = 1
    ∧ handleAddMeasure (handleAddMeasure [] [] fAmountOrders).1
        (handleAddMeasure [] [] fAmountOrders).2 fAmountRefunds
        = handleAddMeasure [] [] fAmountOrders
    ∧ mapGet (handleAddMeasure [] [] fAmountOrders).2 fAmountOrders.name = some "orders"
    ∧ (handleAddMeasureP0 [] [] fAmountOrders).2 =
        some "ReferenceError: fieldId is not defined"
    ∧ mapGet (handleAddMeasureP0 [] [] fAmountOrders).1.2 fAmountOrders.name = none := by
  refine ⟨by decide, by decide, by decide, by decide, by decide⟩

/-- C4: the V1 copy of the tile-init effect sets the tile kind straight from
the backend type and ignores the persisted uiType tag, so reloading a saved
table tile restores chart, not table. -/
theorem claim_C4_counterexample :
    restoreTileTypeV1 tTableSaved = "chart" ∧ restoreTileTypeV1 tTableSaved ≠ "table" := by
  exact ⟨by decide, by decide⟩

/-- C4 (amended): the V2 copy of the tile-init effect restores every UI tile
kind saved with its uiType tag (in particular table), and for legacy tiles
without a configuration falls back to the fixed mapping chart to chart, text
to text, kpi to metric. -/
theorem claim_C4_amended :
    (∀ kind ∈ ["chart", "table", "metric", "text", "query"],
      ∀ (title chartType : String),
      restoreTileTypeV2
        (mkTile title (uiToBackendType kind) (some (buildConfigV2 kind chartType))) = kind)
    ∧ (∀ t : TileR, t.config = none → restoreTileTypeV2 t = backendToUiDefault t.type)
    ∧ backendToUiDefault "chart" = "chart"
    ∧ backendToUiDefault "text" = "text"
    ∧ backendToUiDefault "kpi" = "metric" := by
  refine ⟨?_, ?_, by decide, by decide, by decide⟩
  · intro kind hkind title chartType
    fin_cases hkind <;> rfl
  · intro t ht
    rcases t with ⟨title, type, config⟩
    simp only at ht
    rw [ht]
    rfl

/-- Witness for C4: a saved table tile reloads as table under the V2 effect,
and a legacy kpi tile without tags reloads as metric. -/
theorem claim_C4_witness :
    restoreTileTypeV2
      (mkTile "Sales" (uiToBackendType "table") (some (buildConfigV2 "table" "bar"))) = "table"
    ∧ restoreTileTypeV2 (mkTile "Old" "kpi" none) = "metric" := by
  constructor
  · exact claim_C4_amended.1 "table" (by decide) "Sales" "bar"
  · exact (claim_C4_amended.2.1 (mkTile "Old" "kpi" none) rfl).trans (by decide)

/-- C8: on a metric tile with no measures the V1 save handler blocks before
any network call, but with the generic message Invalid tile configuration,
which does not mention measures. -/
theorem claim_C8_counterexample :
    (handleSaveV1 sMetricNoMeasure).networkCalled = false
    ∧ (handleSaveV1 sMetricNoMeasure).errorMsg = "Invalid tile configuration"
    ∧ ¬ ("measure".data <:+: (handleSaveV1 sMetricNoMeasure).errorMsg.data) := by
  refine ⟨by decide, by decide, by decide⟩

/-- C8 (amended): for every metric-kind editor state with no measures, both
save handlers block before the persistence call, keep the dialog open and
leave the state untouched; V1 surfaces the generic message while V2 surfaces
the measure-required message (whenever the title check is passed first). -/
theorem claim_C8_amended :
    ∀ s : EditorState, s.tileType = "metric" → s.measures = [] →
      (handleSaveV1 s).networkCalled = false
      ∧ (handleSaveV1 s).dialogClosed = false
      ∧ (handleSaveV1 s).stateAfter = s
      ∧ (handleSaveV1 s).errorMsg = "Invalid tile configuration"
      ∧ (handleSaveV2 s).networkCalled = false
      ∧ (handleSaveV2 s).dialogClosed = false
      ∧ (handleSaveV2 s).stateAfter = s
      ∧ (trimStr s.name ≠ "" → (handleSaveV2 s).errorMsg =
          "At least one measure is required for a metric tile") := by
  intro s hmet hms
  have hv1 : isValidV1 s = false := by
    rw [isValidV1, hmet, hms]
    by_cases hn : trimStr s.name = ""
    · rw [if_pos hn]
    · rw [if_neg hn,
        if_neg (by decide : ¬ (("metric" : String) = "chart" ∨ ("metric" : String) = "table")),
        if_pos (rfl : ("metric" : String) = "metric")]
      simp
  have hv2 : (isValidV2 s).1 = false := by
    rw [isValidV2, hmet, hms]
    by_cases hn : trimStr s.name = ""
    · rw [if_pos hn]
    · rw [if_neg hn,
        if_neg (by decide : ¬ (("metric" : String) = "chart" ∧ ([] : List MeasureField).length = 0)),
        if_pos (by decide : ("metric" : String) = "metric" ∧ ([] : List MeasureField).length = 0)]
  have hv2msg : trimStr s.name ≠ "" →
      (isValidV2 s).2 = "At least one measure is required for a metric tile" := by
    intro hn
    rw [isValidV2, hmet, hms, if_neg hn,
      if_neg (by decide : ¬ (("metric" : String) = "chart" ∧ ([] : List MeasureField).length = 0)),
      if_pos (by decide : ("metric" : String) = "metric" ∧ ([] : List MeasureField).length = 0)]
  have r1 : handleSaveV1 s =
      { networkCalled := false, dialogClosed := false,
        errorMsg := "Invalid tile configuration", stateAfter := s } := by
    rw [handleSaveV1, if_pos hv1]
  have r2 : handleSaveV2 s =
      { networkCalled := false, dialogClosed := false,
        errorMsg := (isValidV2 s).2, stateAfter := s } := by
    rw [handleSaveV2, if_pos hv2]
  rw [r1, r2]
  exact ⟨rfl, rfl, rfl, rfl, rfl, rfl, rfl, hv2msg⟩

/-- Witness for C8 at the concrete metric state with a title, a connection
and no measures. -/
theorem claim_C8_witness :
    (handleSaveV1 sMetricNoMeasure).dialogClosed = false
    ∧ (handleSaveV1 sMetricNoMeasure).stateAfter = sMetricNoMeasure
    ∧ (handleSaveV2 sMetricNoMeasure).networkCalled = false
    ∧ (handleSaveV2 sMetricNoMeasure).errorMsg =
        "At least one measure is required for a metric tile" := by
  have h := claim_C8_amended sMetricNoMeasure rfl rfl
  exact ⟨h.2.1, h.2.2.1, h.2.2.2.2.1, h.2.2.2.2.2.2.2 (by decide)⟩

/-- C9: `removeDimension` is not a no-op on every out-of-range index: JS
splice treats a negative index as counting from the end, so index -1 on a
two-element list removes the last element. -/
theorem claim_C9_counterexample :
    ((-1 : Int) < 0 ∨ (2 : Int) ≤ (-1 : Int))
    ∧ handleRemoveDimension [dimA, dimB] (-1) ≠ [dimA, dimB]
    ∧ handleRemoveDimension [dimA, dimB] (-1) = [dimA] := by
  refine ⟨Or.inl (by decide), by decide, by decide⟩

/-- C9 (amended): `removeDimension` is a no-op exactly for indices at or past
the length; an index in range removes the element at that position; a
negative index within -length removes the element counted from the end, and
an index below -length removes the first element (JS splice clamping). -/
theorem claim_C9_amended :
    ∀ (l : List DimensionField) (i : Int),
      ((l.length : Int) ≤ i → handleRemoveDimension l i = l)
      ∧ (0 ≤ i → i < (l.length : Int) →
          handleRemoveDimension l i = l.eraseIdx i.toNat)
      ∧ (-(l.length : Int) ≤ i → i < 0 →
          handleRemoveDimension l i = l.eraseIdx ((l.length : Int) + i).toNat)
      ∧ (i < -(l.length : Int) → handleRemoveDimension l i = l.tail) := by
  intro l i
  refine ⟨?_, ?_, ?_, ?_⟩
  · intro h
    have hs : (spliceStart l.length i).toNat = l.length := by
      rw [spliceStart, if_neg (by omega)]
      omega
    rw [handleRemoveDimension, spliceRemoveOne, hs, List.take_length,
      List.drop_eq_nil_of_le (by omega), List.append_nil]
  · intro h0 h1
    have hs : (spliceStart l.length i).toNat = i.toNat := by
      rw [spliceStart, if_neg (by omega)]
      omega
    rw [handleRemoveDimension, spliceRemoveOne, hs, List.eraseIdx_eq_take_drop_succ]
  · intro h0 h1
    have hs : (spliceStart l.length i).toNat = ((l.length : Int) + i).toNat := by
      rw [spliceStart, if_pos h1]
      omega
    rw [handleRemoveDimension, spliceRemoveOne, hs, List.eraseIdx_eq_take_drop_succ]
  · intro h
    have hs : (spliceStart l.length i).toNat = 0 := by
      rw [spliceStart, if_pos (by omega)]
      omega
    rw [handleRemoveDimension, spliceRemoveOne, hs, List.take_zero, List.nil_append,
      List.drop_one]

/-- Witness for C9: index 5 on a two-element list is a no-op, and index 1
removes the second element. -/
theorem claim_C9_witness :
    handleRemoveDimension [dimA, dimB] 5 = [dimA, dimB]
    ∧ handleRemoveDimension [dimA, dimB] 1 = [dimA, dimB].eraseIdx (1 : Int).toNat := by
  constructor
  · exact (claim_C9_amended [dimA, dimB] 5).1 (by decide)
  · exact (claim_C9_amended [dimA, dimB] 1).2.1 (by decide) (by decide)

/-! Lemmas about the insertion-ordered table set and character absence,
used to settle C3. -/

theorem insertUnique_ne_nil (acc : List String) (x : String) (h : acc ≠ []) :
    insertUnique acc x ≠ [] := by
  rw [insertUnique]
  split
  · exact h
  · simp

theorem head?_insertUnique (acc : List String) (x : String) (h : acc ≠ []) :
    (insertUnique acc x).head? = acc.head? := by
  rw [insertUnique]
  split
  · rfl
  · rcases acc with _ | ⟨a, as⟩
    · exact absurd rfl h
    · rfl

theorem foldl_insertUnique_ne_nil (l acc : List String) (h : acc ≠ []) :
    List.foldl insertUnique acc l ≠ [] := by
  induction l generalizing acc with
  | nil => exact h
  | cons x xs ih => exact ih _ (insertUnique_ne_nil acc x h)

theorem foldl_insertUnique_head (l acc : List String) (h : acc ≠ []) :
    (List.foldl insertUnique acc l).head? = acc.head? := by
  induction l generalizing acc with
  | nil => rfl
  | cons x xs ih =>
    rw [List.foldl_cons, ih (insertUnique acc x) (insertUnique_ne_nil acc x h),
      head?_insertUnique acc x h]

theorem insertUnique_nil (x : String) : insertUnique [] x = [x] := by
  simp [insertUnique]

theorem mem_insertUnique (acc : List String) (x y : String)
    (h : y ∈ insertUnique acc x) : y ∈ acc ∨ y = x := by
  rw [insertUnique] at h
  split at h
  · exact Or.inl h
  · rcases List.mem_append.mp h with h1 | h1
    · exact Or.inl h1
    · exact Or.inr (List.mem_singleton.mp h1)

theorem mem_foldl_insertUnique (l acc : List String) (y : String)
    (h : y ∈ List.foldl insertUnique acc l) : y ∈ acc ∨ y ∈ l := by
  induction l generalizing acc with
  | nil => exact Or.inl h
  | cons x xs ih =>
    rcases ih (insertUnique acc x) h with h1 | h1
    · rcases mem_insertUnique acc x y h1 with h2 | h2
      · exact Or.inl h2
      · exact Or.inr (by rw [h2]; exact List.mem_cons_self x xs)
    · exact Or.inr (List.mem_cons_of_mem x h1)

theorem tablesList_mem (dims : List DimensionField) (ms : List MeasureField)
    (fm : FieldTableMap) (y : String) (h : y ∈ tablesList dims ms fm) :
    (∃ d ∈ dims, y = resolveTable fm d.fieldId)
    ∨ (∃ m ∈ ms, y = resolveTable fm m.fieldId) := by
  rw [tablesList] at h
  rcases mem_foldl_insertUnique _ _ _ h with h1 | h1
  · rcases mem_foldl_insertUnique _ _ _ h1 with h2 | h2
    · exact absurd h2 (List.not_mem_nil y)
    · rcases List.mem_map.mp h2 with ⟨d, hd, hy⟩
      exact Or.inl ⟨d, hd, hy.symm⟩
  · rcases List.mem_map.mp h1 with ⟨m, hm, hy⟩
    exact Or.inr ⟨m, hm, hy.symm⟩

theorem tablesList_ne_nil (dims : List DimensionField) (ms : List MeasureField)
    (fm : FieldTableMap) (hd : dims ≠ []) : tablesList dims ms fm ≠ [] := by
  rcases dims with _ | ⟨d, ds⟩
  · exact absurd rfl hd
  · rw [tablesList, List.map_cons, List.foldl_cons, insertUnique_nil]
    exact foldl_insertUnique_ne_nil _ _ (foldl_insertUnique_ne_nil _ _ (by simp))

theorem tablesList_head (dims : List DimensionField) (ms : List MeasureField)
    (fm : FieldTableMap) (hd : dims ≠ []) :
    (tablesList dims ms fm).head? =
      (dims.map (fun d => resolveTable fm d.fieldId)).head? := by
  rcases dims with _ | ⟨d, ds⟩
  · exact absurd rfl hd
  · rw [tablesList, List.map_cons, List.foldl_cons, insertUnique_nil,
      foldl_insertUnique_head _ _ (foldl_insertUnique_ne_nil _ _ (by simp)),
      foldl_insertUnique_head _ _ (by simp)]
    rfl

theorem headD_mem (l : List String) (d : String) (h : l ≠ []) : l.headD d ∈ l := by
  rcases l with _ | ⟨a, as⟩
  · exact absurd rfl h
  · simp

theorem isInfix_append_left (l s t : List Char) (h : s <:+: t) : s <:+: l ++ t := by
  rcases h with ⟨u, v, huv⟩
  exact ⟨l ++ u, v, by rw [← huv]; simp [List.append_assoc]⟩

theorem notMem_data_append {c : Char} {s t : String} (hs : c ∉ s.data)
    (ht : c ∉ t.data) : c ∉ (s ++ t).data := by
  rw [String.data_append]
  intro h
  rcases List.mem_append.mp h with h1 | h1
  · exact hs h1
  · exact ht h1

theorem star_notMem_resolveTable (fm : FieldTableMap) (k : String)
    (h : ∀ p ∈ fm, '*' ∉ p.2.data) : '*' ∉ (resolveTable fm k).data := by
  cases hg : mapGet fm k with
  | none =>
    rw [resolveTable, hg]
    decide
  | some t =>
    rw [resolveTable, hg]
    by_cases ht : t = ""
    · simp only [jsOrElse, if_pos ht]
      decide
    · simp only [jsOrElse, if_neg ht]
      rw [mapGet] at hg
      rcases Option.map_eq_some'.mp hg with ⟨p, hfind, hp2⟩
      exact hp2 ▸ h p (List.mem_of_find?_eq_some hfind)

theorem star_notMem_strJoin (sep : String) (l : List String) (hsep : '*' ∉ sep.data)
    (h : ∀ x ∈ l, '*' ∉ x.data) : '*' ∉ (strJoin sep l).data := by
  induction l with
  | nil =>
    intro hmem
    simp [strJoin] at hmem
  | cons x xs ih =>
    cases xs with
    | nil => exact h x (by simp)
    | cons y ys =>
      have hrec := ih (fun z hz => h z (List.mem_cons_of_mem x hz))
      rw [strJoin]
      repeat' apply notMem_data_append
      all_goals first
        | exact h x (by simp)
        | exact hsep
        | exact hrec

theorem star_notMem_dimColumn (fm : FieldTableMap) (d : DimensionField)
    (hmap : ∀ p ∈ fm, '*' ∉ p.2.data) (hf : '*' ∉ d.fieldName.data) :
    '*' ∉ (dimColumn fm d).data := by
  rw [dimColumn]
  repeat' apply notMem_data_append
  all_goals first
    | exact star_notMem_resolveTable fm d.fieldId hmap
    | exact hf
    | decide

theorem star_notMem_measColumnV2 (fm : FieldTableMap) (m : MeasureField)
    (hmap : ∀ p ∈ fm, '*' ∉ p.2.data) (hname : '*' ∉ m.fieldName.data)
    (hagg : '*' ∉ m.aggregation.data) (halias : '*' ∉ (jsInterpOpt m.alias).data) :
    '*' ∉ (measColumnV2 fm m).data := by
  rw [measColumnV2]
  repeat' apply notMem_data_append
  all_goals first
    | exact hagg
    | exact star_notMem_resolveTable fm m.fieldId hmap
    | exact hname
    | exact halias
    | decide

theorem star_notMem_groupBy (dims : List DimensionField) (fm : FieldTableMap)
    (hmap : ∀ p ∈ fm, '*' ∉ p.2.data) (hdims : ∀ d ∈ dims, '*' ∉ d.fieldName.data) :
    '*' ∉ (groupByClauseOf dims fm).data := by
  have hcols : '*' ∉ (strJoin ", " (dims.map (dimColumn fm))).data := by
    refine star_notMem_strJoin ", " _ (by decide) ?_
    intro x hx
    rcases List.mem_map.mp hx with ⟨d, hdmem, hdx⟩
    exact hdx ▸ star_notMem_dimColumn fm d hmap (hdims d hdmem)
  rw [groupByClauseOf]
  split
  · repeat' apply notMem_data_append
    all_goals first
      | exact hcols
      | decide
  · intro hmem
    simp at hmem

/-- C3: the claim fails on the V1 copy of `generateSqlQuery`, which never
emits any JOIN marker: on a selection resolving to two distinct tables its
output does not contain the marker comment. -/
theorem claim_C3_counterexample :
    1 < (tablesList [dimA, dimB] [measC] fmTwoTables).length
    ∧ ¬ (joinComment.data <:+: (generateSqlQueryV1 [dimA, dimB] [measC] fmTwoTables).data) := by
  exact ⟨by decide, by decide⟩

/-- C3 (amended, for the V2/P0 copy of `generateSqlQuery`): on a non-empty
selection the head of the deduplicated first-appearance table list is the
table resolved for the first dimension and is what the FROM clause uses; when
more than one distinct table is resolved the output contains the JOIN-needed
marker comment; when exactly one is resolved and the field names, aggregation
names, aliases and mapped table names are free of the asterisk character, no
such marker appears.  The V1 copy never emits the marker. -/
theorem claim_C3_amended :
    ∀ (dims : List DimensionField) (ms : List MeasureField) (fm : FieldTableMap),
    dims ≠ [] → ms ≠ [] →
    (∀ d ∈ dims, '*' ∉ d.fieldName.data) →
    (∀ m ∈ ms, '*' ∉ m.fieldName.data ∧ '*' ∉ m.aggregation.data
      ∧ '*' ∉ (jsInterpOpt m.alias).data) →
    (∀ p ∈ fm, '*' ∉ p.2.data) →
    (tablesList dims ms fm).head? =
        (dims.map (fun d => resolveTable fm d.fieldId)).head?
    ∧ generateSqlQueryV2 dims ms fm =
        "SELECT " ++ strJoin ", " (dims.map (dimColumn fm) ++ ms.map (measColumnV2 fm))
          ++ " FROM " ++ (tablesList dims ms fm).headD "undefined"
          ++ " " ++ (if 1 < (tablesList dims ms fm).length then joinComment else "")
          ++ " " ++ groupByClauseOf dims fm
    ∧ (1 < (tablesList dims ms fm).length →
        joinComment.data <:+: (generateSqlQueryV2 dims ms fm).data)
    ∧ ((tablesList dims ms fm).length = 1 →
        ¬ joinComment.data <:+: (generateSqlQueryV2 dims ms fm).data) := by
  intro dims ms fm hd hm h1 h2 h3
  have hc : ¬ (dims.length = 0 ∨ ms.length = 0) := by
    rintro (h0 | h0)
    · exact hd (List.length_eq_zero.mp h0)
    · exact hm (List.length_eq_zero.mp h0)
  have heq : generateSqlQueryV2 dims ms fm =
      "SELECT " ++ strJoin ", " (dims.map (dimColumn fm) ++ ms.map (measColumnV2 fm))
        ++ " FROM " ++ (tablesList dims ms fm).headD "undefined"
        ++ " " ++ (if 1 < (tablesList dims ms fm).length then joinComment else "")
        ++ " " ++ groupByClauseOf dims fm := by
    rw [generateSqlQueryV2, if_neg hc]
  refine ⟨tablesList_head dims ms fm hd, heq, ?_, ?_⟩
  · intro hlen
    rw [heq, if_pos hlen]
    simp only [String.data_append, List.append_assoc]
    apply isInfix_append_left
    apply isInfix_append_left
    apply isInfix_append_left
    apply isInfix_append_left
    apply isInfix_append_left
    exact (List.prefix_append _ _).isInfix
  · intro hlen1
    have hmark : (if 1 < (tablesList dims ms fm).length then joinComment else "") = "" := by
      rw [if_neg]
      rw [hlen1]
      decide
    have hcols : '*' ∉ (strJoin ", "
        (dims.map (dimColumn fm) ++ ms.map (measColumnV2 fm))).data := by
      refine star_notMem_strJoin ", " _ (by decide) ?_
      intro x hx
      rcases List.mem_append.mp hx with hx1 | hx1
      · rcases List.mem_map.mp hx1 with ⟨d, hdmem, hdx⟩
        exact hdx ▸ star_notMem_dimColumn fm d h3 (h1 d hdmem)
      · rcases List.mem_map.mp hx1 with ⟨m, hmmem, hmx⟩
        exact hmx ▸ star_notMem_measColumnV2 fm m h3 (h2 m hmmem).1
          (h2 m hmmem).2.1 (h2 m hmmem).2.2
    have hfrom : '*' ∉ ((tablesList dims ms fm).headD "undefined").data := by
      have hmemtl : (tablesList dims ms fm).headD "undefined" ∈ tablesList dims ms fm :=
        headD_mem _ _ (tablesList_ne_nil dims ms fm hd)
      rcases tablesList_mem dims ms fm _ hmemtl with ⟨d, _, hy⟩ | ⟨m, _, hy⟩
      · exact hy ▸ star_notMem_resolveTable fm d.fieldId h3
      · exact hy ▸ star_notMem_resolveTable fm m.fieldId h3
    have hgb : '*' ∉ (groupByClauseOf dims fm).data := star_notMem_groupBy dims fm h3 h1
    intro hinf
    have hstar : '*' ∈ (generateSqlQueryV2 dims ms fm).data :=
      hinf.subset (by decide : '*' ∈ joinComment.data)
    revert hstar
    rw [heq, hmark]
    show '*' ∉ _
    repeat' apply notMem_data_append
    all_goals first
      | exact hcols
      | exact hfrom
      | exact hgb
      | decide

/-- Witness for C3 at the concrete two-table selection: the table list heads
at t1, the structural equation holds, and since two distinct tables are
resolved the marker-containment branch applies. -/
theorem claim_C3_witness :
    (tablesList [dimA, dimB] [measC] fmTwoTables).head? =
        ([dimA, dimB].map (fun d => resolveTable fmTwoTables d.fieldId)).head?
    ∧ generateSqlQueryV2 [dimA, dimB] [measC] fmTwoTables =
        "SELECT " ++ strJoin ", " ([dimA, dimB].map (dimColumn fmTwoTables)
            ++ [measC].map (measColumnV2 fmTwoTables))
          ++ " FROM " ++ (tablesList [dimA, dimB] [measC] fmTwoTables).headD "undefined"
          ++ " " ++ (if 1 < (tablesList [dimA, dimB] [measC] fmTwoTables).length
              then joinComment else "")
          ++ " " ++ groupByClauseOf [dimA, dimB] fmTwoTables
    ∧ (1 < (tablesList [dimA, dimB] [measC] fmTwoTables).length →
        joinComment.data <:+: (generateSqlQueryV2 [dimA, dimB] [measC] fmTwoTables).data)
    ∧ ((tablesList [dimA, dimB] [measC] fmTwoTables).length = 1 →
        ¬ joinComment.data <:+:
            (generateSqlQueryV2 [dimA, dimB] [measC] fmTwoTables).data) :=
  claim_C3_amended [dimA, dimB] [measC] fmTwoTables (by decide) (by decide)
    (by decide) (by decide) (by decide)

end BI
